import Mathlib

/-!
Shallow embedding of the core of the ProofHoldings Go SDK
(`errors.go`, `http.go`, `polling.go`, `client.go`): the status-driven
error taxonomy, the HTTP transport retry loop, the exponential backoff
function, the wait-option resolution and the generic polling engine.

Modelling conventions:
* Go `map[string]any` JSON objects are `GoMap := List (String × JsonVal)`,
  looked up by first key occurrence (JSON objects have unique keys).
* Go `int` is `Int`; durations are measured in milliseconds.
* JSON (de)serialization performed by Go's `encoding/json` package is an
  external collaborator: the transport model is parameterized by a parse
  function `String → Option GoMap` (`none` = unmarshal error).
* Go `time.Duration.String()` formatting is external: the polling model is
  parameterized by `showDur : Int → String`.
* The real sleeps (`time.Sleep`, `time.After`) only delay execution and do
  not affect the returned value, so they are not represented.
-/

namespace ProofSDK

/-- A JSON value, as decoded by `encoding/json` into `any`
(numbers restricted to integers, which covers every value the SDK's
error-body decoding manipulates). -/
inductive JsonVal where
  | null
  | bool (b : Bool)
  | num (n : Int)
  | str (s : String)
  | arr (xs : List JsonVal)
  | obj (fields : List (String × JsonVal))


/-- Go `map[string]any` as produced by unmarshalling a JSON object. -/
abbrev GoMap := List (String × JsonVal)

/-- Go map lookup `m[k]`: the value at the first occurrence of key `k`. -/
def mapLookup (m : GoMap) (k : String) : Option JsonVal :=
  match m with
  | [] => none
  | (k', v) :: rest => if k' = k then some v else mapLookup rest k

/-- `apiErrorBody` (errors.go): the decoded nested `error` object of an
error response. Go zero values: empty strings, `nil` interface for
`Details`, `nil` pointers for the two `*int` fields. -/
structure ApiErrorBody where
  code : String
  message : String
  details : Option JsonVal
  requestId : String
  retryAfter : Option Int
  remainingAttempts : Option Int


/-- `ProofError` (errors.go): the base error shape shared by all variants.
A Go struct literal that omits `StatusCode` leaves it at the zero value 0. -/
structure ProofError where
  message : String
  code : String
  statusCode : Int
  details : Option JsonVal
  requestId : String


/-- `(*ProofError).Error()` (errors.go):
`fmt.Sprintf("%s (code: %s, status: %d)", ...)`. -/
def ProofError.goError (e : ProofError) : String :=
  e.message ++ " (code: " ++ e.code ++ ", status: " ++ toString e.statusCode ++ ")"

/-- The closed taxonomy of error values (errors.go declares each variant as
a struct embedding `ProofError`; the embedding is a tagged union).
`rateLimit` additionally carries the two optional lockout fields of
`RateLimitError`. `base` is the untagged `*ProofError` fallback. -/
inductive ClassifiedError where
  | validation (e : ProofError)
  | authentication (e : ProofError)
  | forbidden (e : ProofError)
  | notFound (e : ProofError)
  | conflict (e : ProofError)
  | rateLimit (e : ProofError) (retryAfter : Option Int) (remainingAttempts : Option Int)
  | server (e : ProofError)
  | network (e : ProofError)
  | timeout (e : ProofError)
  | pollingTimeout (e : ProofError)
  | base (e : ProofError)


/-- The variant tag of a classified error. -/
inductive ErrKind where
  | validation | authentication | forbidden | notFound | conflict
  | rateLimit | server | network | timeout | pollingTimeout | base


def ClassifiedError.kind : ClassifiedError → ErrKind
  | .validation _ => .validation
  | .authentication _ => .authentication
  | .forbidden _ => .forbidden
  | .notFound _ => .notFound
  | .conflict _ => .conflict
  | .rateLimit _ _ _ => .rateLimit
  | .server _ => .server
  | .network _ => .network
  | .timeout _ => .timeout
  | .pollingTimeout _ => .pollingTimeout
  | .base _ => .base

/-- The embedded `ProofError` of any variant. -/
def ClassifiedError.toBase : ClassifiedError → ProofError
  | .validation e => e
  | .authentication e => e
  | .forbidden e => e
  | .notFound e => e
  | .conflict e => e
  | .rateLimit e _ _ => e
  | .server e => e
  | .network e => e
  | .timeout e => e
  | .pollingTimeout e => e
  | .base e => e

/-- `errorFromResponse` (errors.go): map a status code plus optional decoded
error body to a classified error. Defaults `code`/`message` when the body is
absent or leaves the field empty, then dispatches on the status code. -/
def errorFromResponse (statusCode : Int) (apiErr : Option ApiErrorBody) :
    ClassifiedError :=
  let code := match apiErr with
    | none => "http_" ++ toString statusCode
    | some b => if b.code = "" then "http_" ++ toString statusCode else b.code
  let message := match apiErr with
    | none => "Request failed with status " ++ toString statusCode
    | some b =>
        if b.message = "" then "Request failed with status " ++ toString statusCode
        else b.message
  let details : Option JsonVal := match apiErr with
    | none => none
    | some b => b.details
  let requestID := match apiErr with
    | none => ""
    | some b => b.requestId
  let base : ProofError :=
    { message := message, code := code, statusCode := statusCode,
      details := details, requestId := requestID }
  if statusCode = 400 then .validation base
  else if statusCode = 401 then .authentication base
  else if statusCode = 403 then .forbidden base
  else if statusCode = 404 then .notFound base
  else if statusCode = 409 then .conflict base
  else if statusCode = 429 then
    match apiErr with
    | none => .rateLimit base none none
    | some b => .rateLimit base b.retryAfter b.remainingAttempts
  else if 500 ≤ statusCode then .server base
  else .base base

/-! ### Transport (http.go) -/

/-- `backoffBaseMs`, `backoffMaxMs` (http.go). -/
def backoffBaseMs : Nat := 1000
def backoffMaxMs : Nat := 10000

/-- `(*httpClient).backoff` (http.go):
`math.Min(backoffBaseMs*math.Pow(2, float64(attempt)), backoffMaxMs)`
milliseconds. The Go computation is in `float64`; it is exact here because
`1000 * 2^n` is an exact float whenever it is below the cap (`n ≤ 3`), and
for `n ≥ 4` the min is the cap `10000` regardless of the (possibly huge but
monotone) float value of `1000 * 2^n`. -/
def backoff (attempt : Nat) : Nat :=
  min (backoffBaseMs * 2 ^ attempt) backoffMaxMs

/-- `TimeoutError` as constructed by `(*httpClient).request` (http.go) when
`client.Do` fails and the context is done. `StatusCode` is not set in the
Go struct literal, so it is the zero value 0. -/
def timeoutError (method path : String) : ClassifiedError :=
  .timeout { message := "Request to " ++ method ++ " " ++ path ++ " timed out",
             code := "timeout", statusCode := 0, details := none, requestId := "" }

/-- `NetworkError` as constructed by `(*httpClient).request` (http.go),
wrapping a low-level failure message. `StatusCode` is the zero value 0. -/
def networkError (msg : String) : ClassifiedError :=
  .network { message := msg, code := "network_error", statusCode := 0,
             details := none, requestId := "" }

/-- The outcome of one `client.Do` call as seen by the retry loop:
either a transport-level failure (with the observation whether
`ctx.Err() != nil` at that moment, and the failure's message), or a
received HTTP response (status, optional `Retry-After` header, raw body).
The header only selects the sleep duration before a 429 retry and never
affects the returned value, so the model carries but ignores it. -/
inductive SendResult where
  | failure (ctxDone : Bool) (errMsg : String)
  | response (statusCode : Int) (retryAfterHeader : Option String) (body : String)

/-- The result of one logical `request` call:
`(map[string]any, error)` with exactly one side set. -/
inductive RequestOutcome where
  | ok (result : GoMap)
  | err (e : ClassifiedError)

/-- Body parsing in `request` (http.go lines 118–126): a non-empty body is
unmarshalled, and an unmarshal failure (or an empty body) yields the empty
map. `parse` models `json.Unmarshal` into `map[string]any`. -/
def parseResponse (parse : String → Option GoMap) (respBody : String) : GoMap :=
  if respBody.length > 0 then
    match parse respBody with
    | some result => result
    | none => []
  else []

/-- Decoding `result["error"]` into an `apiErrorBody` (http.go lines
130–136: marshal the `any` value back to JSON and unmarshal it into the
struct). Per `encoding/json`, unmarshalling a non-object into a struct
leaves the struct at its zero value, and a field of the wrong JSON type is
skipped (left at its zero value) while the other fields still decode. -/
def decodeApiErrorBody (v : JsonVal) : ApiErrorBody :=
  match v with
  | .obj fields =>
    { code := match mapLookup fields "code" with
        | some (.str s) => s
        | _ => ""
      message := match mapLookup fields "message" with
        | some (.str s) => s
        | _ => ""
      details := match mapLookup fields "details" with
        | some .null => none
        | some v => some v
        | none => none
      requestId := match mapLookup fields "request_id" with
        | some (.str s) => s
        | _ => ""
      retryAfter := match mapLookup fields "retryAfter" with
        | some (.num n) => some n
        | _ => none
      remainingAttempts := match mapLookup fields "remaining_attempts" with
        | some (.num n) => some n
        | _ => none }
  | _ => { code := "", message := "", details := none, requestId := "",
           retryAfter := none, remainingAttempts := none }

/-- `if errData, ok := result["error"]; ok && errData != nil { ... }`
(http.go): the `apiErrorBody` pointer passed to `errorFromResponse`.
A present JSON `null` is a nil `any`, so the pointer stays nil. -/
def extractApiErr (result : GoMap) : Option ApiErrorBody :=
  match mapLookup result "error" with
  | none => none
  | some .null => none
  | some v => some (decodeApiErrorBody v)

/-- The retry loop of `(*httpClient).request` (http.go lines 62–147),
from attempt index `attempt` on, paired with the number of `client.Do`
calls performed. `send n` is the outcome of the `client.Do` call of
attempt `n` (the external server/network). Faithful to the source:
* a send failure with the context done returns a `TimeoutError` at once;
* any other send failure retries while `attempt < maxRetries`, else the
  loop breaks with `lastErr` just set, and the code after the loop wraps
  it in a `NetworkError` (the `"Network request failed"` fallback is
  unreachable: the loop is always entered and only exits via `break`);
* a 429 response with attempts remaining retries (after sleeping per the
  `Retry-After` header or the backoff — timing only);
* a ≥500 response with attempts remaining retries after the backoff;
* otherwise the body is parsed, a ≥400 status is classified via
  `errorFromResponse` on the extracted `error` object, and any other
  status returns the parsed map. -/
def requestFrom (send : Nat → SendResult) (parse : String → Option GoMap)
    (method path : String) (maxRetries attempt : Nat) : RequestOutcome × Nat :=
  match send attempt with
  | .failure ctxDone msg =>
    if ctxDone then (.err (timeoutError method path), 1)
    else if h : attempt < maxRetries then
      let r := requestFrom send parse method path maxRetries (attempt + 1)
      (r.1, r.2 + 1)
    else (.err (networkError msg), 1)
  | .response status _hdr body =>
    if h : status = 429 ∧ attempt < maxRetries then
      let r := requestFrom send parse method path maxRetries (attempt + 1)
      (r.1, r.2 + 1)
    else if h : 500 ≤ status ∧ attempt < maxRetries then
      let r := requestFrom send parse method path maxRetries (attempt + 1)
      (r.1, r.2 + 1)
    else
      let result := parseResponse parse body
      if 400 ≤ status then
        (.err (errorFromResponse status (extractApiErr result)), 1)
      else (.ok result, 1)
termination_by maxRetries + 1 - attempt
decreasing_by all_goals omega

/-- One logical `request`: the retry loop started at attempt 0. -/
def request (send : Nat → SendResult) (parse : String → Option GoMap)
    (method path : String) (maxRetries : Nat) : RequestOutcome × Nat :=
  requestFrom send parse method path maxRetries 0

/-! ### Wait options (client.go) and polling engine (polling.go) -/

/-- `WaitOptions` (client.go), durations in milliseconds. Go durations may
be zero or negative, hence `Int`. -/
structure WaitOptions where
  interval : Int
  timeout : Int

/-- `resolveWaitOptions` (client.go): defaults interval 3 s and timeout
10 min (in milliseconds); a positive override replaces the default, a
non-positive one is ignored. `none` models a nil `*WaitOptions`. -/
def resolveWaitOptions (opts : Option WaitOptions) : Int × Int :=
  match opts with
  | none => (3000, 600000)
  | some o =>
    ((if o.interval > 0 then o.interval else 3000),
     (if o.timeout > 0 then o.timeout else 600000))

/-- `status, _ := resource["status"].(string)` (polling.go): the `status`
field type-asserted to a string, empty string when absent or non-string. -/
def getStatus (resource : GoMap) : String :=
  match mapLookup resource "status" with
  | some (.str s) => s
  | _ => ""

/-- `PollingTimeoutError` as constructed by `pollUntilComplete`
(polling.go): message `"%s did not complete within %s (last status: %s)"`
formatted with the label, the rendered timeout duration and the last
observed status. `StatusCode` is the zero value 0. -/
def pollingTimeoutError (label durStr status : String) : ClassifiedError :=
  .pollingTimeout
    { message := label ++ " did not complete within " ++ durStr ++
        " (last status: " ++ status ++ ")",
      code := "polling_timeout", statusCode := 0, details := none,
      requestId := "" }

/-- One retrieval outcome: `retrieve(ctx)` returns a resource map or an
error (typically a `ClassifiedError` from the transport). -/
abbrev RetrieveResult := Except ClassifiedError GoMap

/-- The loop of `pollUntilComplete` (polling.go lines 22–45), iteration
`n` on, bounded by `fuel` iterations (`none` = analysis fuel exhausted;
the source loop itself has no iteration bound other than the timeout).
`retrieve n` is the n-th retrieval's outcome and `elapsed n` models
`time.Since(start)` (ms) at iteration n's timeout check; `showDur` models
Go's `time.Duration.String()`. Faithful order of checks per iteration:
retrieval error propagates; a terminal status returns the resource; then
`elapsed ≥ timeout` fails with the polling-timeout error; otherwise sleep
one interval (timing only) and loop. -/
def pollLoop (retrieve : Nat → RetrieveResult) (isTerminal : String → Bool)
    (label : String) (showDur : Int → String) (elapsed : Nat → Int)
    (timeout : Int) : Nat → Nat → Option RetrieveResult
  | 0, _ => none
  | fuel + 1, n =>
    match retrieve n with
    | .error e => some (.error e)
    | .ok resource =>
      let status := getStatus resource
      if isTerminal status then some (.ok resource)
      else if timeout ≤ elapsed n then
        some (.error (pollingTimeoutError label (showDur timeout) status))
      else pollLoop retrieve isTerminal label showDur elapsed timeout fuel (n + 1)

/-- `pollUntilComplete` (polling.go): resolve the wait options and run the
loop from iteration 0 against the resolved timeout. -/
def pollUntilComplete (retrieve : Nat → RetrieveResult)
    (isTerminal : String → Bool) (label : String) (showDur : Int → String)
    (elapsed : Nat → Int) (opts : Option WaitOptions) (fuel : Nat) :
    Option RetrieveResult :=
  pollLoop retrieve isTerminal label showDur elapsed
    (resolveWaitOptions opts).2 fuel 0

/-- The `RetryAfter` field of a `RateLimitError`, absent on other variants. -/
def ClassifiedError.rlRetryAfter : ClassifiedError → Option Int
  | .rateLimit _ ra _ => ra
  | _ => none

/-- The `RemainingAttempts` field of a `RateLimitError`, absent on other
variants. -/
def ClassifiedError.rlRemainingAttempts : ClassifiedError → Option Int
  | .rateLimit _ _ rem => rem
  | _ => none

/-! ### Helper lemmas -/

theorem append_ne_empty_left {s t : String} (hs : s ≠ "") : s ++ t ≠ "" := by
  intro h
  have hd := congrArg String.data h
  simp at hd
  exact hs (String.ext hd.1)

theorem append_ne_empty_right {s t : String} (ht : t ≠ "") : s ++ t ≠ "" := by
  intro h
  have hd := congrArg String.data h
  simp at hd
  exact ht (String.ext hd.2)

/-- The embedded base error of any classification result, field by field. -/
theorem errorFromResponse_toBase (s : Int) (ae : Option ApiErrorBody) :
    (errorFromResponse s ae).toBase =
      { message := match ae with
          | none => "Request failed with status " ++ toString s
          | some b =>
              if b.message = "" then "Request failed with status " ++ toString s
              else b.message
        code := match ae with
          | none => "http_" ++ toString s
          | some b => if b.code = "" then "http_" ++ toString s else b.code
        statusCode := s
        details := match ae with | none => none | some b => b.details
        requestId := match ae with | none => "" | some b => b.requestId } := by
  cases ae <;> simp only [errorFromResponse] <;> split_ifs <;>
    simp [ClassifiedError.toBase]

/-- The variant tag of a classification result as a function of the status. -/
theorem errorFromResponse_kind (s : Int) (ae : Option ApiErrorBody) :
    (errorFromResponse s ae).kind =
      (if s = 400 then .validation
       else if s = 401 then .authentication
       else if s = 403 then .forbidden
       else if s = 404 then .notFound
       else if s = 409 then .conflict
       else if s = 429 then .rateLimit
       else if 500 ≤ s then .server
       else ErrKind.base) := by
  cases ae <;> simp only [errorFromResponse] <;> split_ifs <;>
    simp_all [ClassifiedError.kind]

theorem requestFrom_failure_ctxDone (send : Nat → SendResult)
    (parse : String → Option GoMap) (method path : String)
    (maxRetries attempt : Nat) (msg : String)
    (hsend : send attempt = .failure true msg) :
    requestFrom send parse method path maxRetries attempt =
      (.err (timeoutError method path), 1) := by
  rw [requestFrom.eq_def, hsend]
  simp

theorem requestFrom_failure_retry (send : Nat → SendResult)
    (parse : String → Option GoMap) (method path : String)
    (maxRetries attempt : Nat) (msg : String)
    (hsend : send attempt = .failure false msg)
    (hlt : attempt < maxRetries) :
    requestFrom send parse method path maxRetries attempt =
      ((requestFrom send parse method path maxRetries (attempt + 1)).1,
       (requestFrom send parse method path maxRetries (attempt + 1)).2 + 1) := by
  rw [requestFrom.eq_def, hsend]
  simp [hlt]

theorem requestFrom_failure_last (send : Nat → SendResult)
    (parse : String → Option GoMap) (method path : String)
    (maxRetries attempt : Nat) (msg : String)
    (hsend : send attempt = .failure false msg)
    (hge : ¬ attempt < maxRetries) :
    requestFrom send parse method path maxRetries attempt =
      (.err (networkError msg), 1) := by
  rw [requestFrom.eq_def, hsend]
  simp [hge]

theorem requestFrom_response_retry (send : Nat → SendResult)
    (parse : String → Option GoMap) (method path : String)
    (maxRetries attempt : Nat) (status : Int) (hdr : Option String)
    (body : String)
    (hsend : send attempt = .response status hdr body)
    (hretry : status = 429 ∨ 500 ≤ status)
    (hlt : attempt < maxRetries) :
    requestFrom send parse method path maxRetries attempt =
      ((requestFrom send parse method path maxRetries (attempt + 1)).1,
       (requestFrom send parse method path maxRetries (attempt + 1)).2 + 1) := by
  rw [requestFrom.eq_def, hsend]
  rcases hretry with h | h <;> simp [h, hlt]

theorem requestFrom_response_final (send : Nat → SendResult)
    (parse : String → Option GoMap) (method path : String)
    (maxRetries attempt : Nat) (status : Int) (hdr : Option String)
    (body : String)
    (hsend : send attempt = .response status hdr body)
    (h429 : ¬ (status = 429 ∧ attempt < maxRetries))
    (h500 : ¬ (500 ≤ status ∧ attempt < maxRetries)) :
    requestFrom send parse method path maxRetries attempt =
      ((if 400 ≤ status then
          .err (errorFromResponse status (extractApiErr (parseResponse parse body)))
        else .ok (parseResponse parse body)), 1) := by
  rw [requestFrom.eq_def, hsend]
  simp only [h429, h500, dite_false, if_false]
  split <;> rfl

/-- Every run of the retry loop performs at least one `client.Do` call. -/
theorem requestFrom_calls_pos (send : Nat → SendResult)
    (parse : String → Option GoMap) (method path : String)
    (maxRetries attempt : Nat) :
    1 ≤ (requestFrom send parse method path maxRetries attempt).2 := by
  rw [requestFrom.eq_def]
  cases hs : send attempt <;> simp only [] <;> (repeat' split) <;> simp

/-! ### Claim theorems -/

/-- C5: for every attempt index n ≥ 0, backoff(n) = min(1000·2^n, 10000)
milliseconds: exactly 1000, 2000, 4000, 8000 for n = 0..3 and exactly
10000 for every n ≥ 4 (e.g. backoff(10) = 10000); a pure function of the
attempt index with no jitter. -/
theorem backoff_exponential_capped :
    backoff 0 = 1000 ∧ backoff 1 = 2000 ∧ backoff 2 = 4000 ∧
    backoff 3 = 8000 ∧ backoff 10 = 10000 ∧
    (∀ n : Nat, backoff n = min (1000 * 2 ^ n) 10000) ∧
    (∀ n : Nat, 4 ≤ n → backoff n = 10000) := by
  refine ⟨by decide, by decide, by decide, by decide, by decide,
    fun n => rfl, fun n hn => ?_⟩
  have h16 : (16 : Nat) ≤ 2 ^ n := by
    calc (16 : Nat) = 2 ^ 4 := by norm_num
      _ ≤ 2 ^ n := Nat.pow_le_pow_right (by norm_num) hn
  have hb : (10000 : Nat) ≤ 1000 * 2 ^ n := by nlinarith
  simpa [backoff, backoffBaseMs, backoffMaxMs] using Nat.min_eq_right hb

/-- C5 witness: the capped branch evaluated at attempt 7. -/
theorem backoff_exponential_capped_witness : backoff 7 = 10000 :=
  backoff_exponential_capped.2.2.2.2.2.2 7 (by decide)

/-- C6: if the error body is absent or a field of it is empty, the code
defaults to "http_<status>" and the message to "Request failed with status
<status>", with details and requestId absent; a body-supplied code,
message, details and request_id are carried verbatim, not the defaults. -/
theorem classification_defaults_and_verbatim (s : Int) (b : ApiErrorBody) :
    ((errorFromResponse s none).toBase.code = "http_" ++ toString s ∧
     (errorFromResponse s none).toBase.message =
       "Request failed with status " ++ toString s ∧
     (errorFromResponse s none).toBase.details = none ∧
     (errorFromResponse s none).toBase.requestId = "") ∧
    (b.code = "" →
      (errorFromResponse s (some b)).toBase.code = "http_" ++ toString s) ∧
    (b.message = "" →
      (errorFromResponse s (some b)).toBase.message =
        "Request failed with status " ++ toString s) ∧
    (b.code ≠ "" → (errorFromResponse s (some b)).toBase.code = b.code) ∧
    (b.message ≠ "" → (errorFromResponse s (some b)).toBase.message = b.message) ∧
    (errorFromResponse s (some b)).toBase.details = b.details ∧
    (errorFromResponse s (some b)).toBase.requestId = b.requestId := by
  simp [errorFromResponse_toBase]
  refine ⟨fun h h2 => absurd h h2, fun h h2 => absurd h h2,
          fun h h2 => absurd h2 h, fun h h2 => absurd h2 h⟩

/-- C6 witness: a 404 body with a non-empty code and empty message. -/
theorem classification_defaults_and_verbatim_witness :
    (errorFromResponse 404
      (some { code := "not_found", message := "", details := none,
              requestId := "req_1", retryAfter := none,
              remainingAttempts := none })).toBase.code = "not_found" :=
  (classification_defaults_and_verbatim 404
    { code := "not_found", message := "", details := none,
      requestId := "req_1", retryAfter := none,
      remainingAttempts := none }).2.2.2.1 (by decide)

/-- C2: for a 429 response whose error body contains retryAfter=3600 and
remaining_attempts=0 (decoded by the transport's error extraction), the
classified RateLimit error carries retry-after 3600 and remaining-attempts
0; in general the RateLimit variant carries the body's optional retryAfter
and remainingAttempts values. -/
theorem rateLimit_carries_lockout_fields :
    (∀ b : ApiErrorBody,
      (errorFromResponse 429 (some b)).kind = .rateLimit ∧
      (errorFromResponse 429 (some b)).rlRetryAfter = b.retryAfter ∧
      (errorFromResponse 429 (some b)).rlRemainingAttempts =
        b.remainingAttempts) ∧
    (request
        (fun _ => .response 429 none "rate-limited-body")
        (fun _ => some [("error", .obj [("code", .str "rate_limited"),
          ("message", .str "Too many requests"), ("retryAfter", .num 3600),
          ("remaining_attempts", .num 0)])])
        "POST" "/auth" 0).1 =
      .err (.rateLimit
        { message := "Too many requests", code := "rate_limited",
          statusCode := 429, details := none, requestId := "" }
        (some 3600) (some 0)) := by
  constructor
  · intro b
    simp [errorFromResponse, ClassifiedError.kind, ClassifiedError.rlRetryAfter,
      ClassifiedError.rlRemainingAttempts]
  · have hfin := requestFrom_response_final
      (fun _ => .response 429 none "rate-limited-body")
      (fun _ => some [("error", .obj [("code", .str "rate_limited"),
        ("message", .str "Too many requests"), ("retryAfter", .num 3600),
        ("remaining_attempts", .num 0)])])
      "POST" "/auth" 0 0 429 none "rate-limited-body" rfl
      (by simp) (by simp)
    have hpr : parseResponse
        (fun _ => some [("error", JsonVal.obj [("code", JsonVal.str "rate_limited"),
          ("message", JsonVal.str "Too many requests"), ("retryAfter", JsonVal.num 3600),
          ("remaining_attempts", JsonVal.num 0)])])
        "rate-limited-body" =
        [("error", JsonVal.obj [("code", JsonVal.str "rate_limited"),
          ("message", JsonVal.str "Too many requests"), ("retryAfter", JsonVal.num 3600),
          ("remaining_attempts", JsonVal.num 0)])] := by
      unfold parseResponse
      rw [if_pos (by decide)]
    rw [request, hfin, hpr]
    simp [extractApiErr, decodeApiErrorBody, mapLookup, errorFromResponse]

/-- C1 counterexample: for status 418 with a body whose code is "teapot",
classification returns the untagged base error carrying the body's code
verbatim, so its code is not "http_418" as the claim states for every
optional error body. -/
theorem classify_fallback_verbatim_code_cex :
    (errorFromResponse 418
      (some { code := "teapot", message := "I am a teapot", details := none,
              requestId := "", retryAfter := none,
              remainingAttempts := none })).kind = .base ∧
    (errorFromResponse 418
      (some { code := "teapot", message := "I am a teapot", details := none,
              requestId := "", retryAfter := none,
              remainingAttempts := none })).toBase.code = "teapot" ∧
    "teapot" ≠ "http_418" :=
  ⟨rfl, rfl, by decide⟩

/-- C1 (amended): for every status in {400,401,403,404,409,429} and every
optional error body, classification returns exactly the corresponding
variant; for every status ≥ 500 the Server variant; and for any other
status the untagged base error carrying that status, whose code is
"http_<status>" when the body is absent or supplies an empty code. -/
theorem classify_status_variant_mapping (s : Int) (ae : Option ApiErrorBody) :
    (s = 400 → (errorFromResponse s ae).kind = .validation) ∧
    (s = 401 → (errorFromResponse s ae).kind = .authentication) ∧
    (s = 403 → (errorFromResponse s ae).kind = .forbidden) ∧
    (s = 404 → (errorFromResponse s ae).kind = .notFound) ∧
    (s = 409 → (errorFromResponse s ae).kind = .conflict) ∧
    (s = 429 → (errorFromResponse s ae).kind = .rateLimit) ∧
    (500 ≤ s → (errorFromResponse s ae).kind = .server) ∧
    (s ∉ ([400, 401, 403, 404, 409, 429] : List Int) → s < 500 →
      (errorFromResponse s ae).kind = .base ∧
      (errorFromResponse s ae).toBase.statusCode = s ∧
      ((∀ b, ae = some b → b.code = "") →
        (errorFromResponse s ae).toBase.code = "http_" ++ toString s)) := by
  refine ⟨?_, ?_, ?_, ?_, ?_, ?_, ?_, ?_⟩
  any_goals
    intro h
    subst h
    rw [errorFromResponse_kind]
    norm_num
  · intro h
    rw [errorFromResponse_kind]
    split_ifs <;> first | rfl | omega
  · intro hnot hlt
    simp only [List.mem_cons, List.not_mem_nil, or_false, not_or] at hnot
    obtain ⟨h400, h401, h403, h404, h409, h429⟩ := hnot
    refine ⟨?_, ?_, ?_⟩
    · rw [errorFromResponse_kind]
      split_ifs <;> first | rfl | omega
    · rw [errorFromResponse_toBase]
    · intro hcode
      rw [errorFromResponse_toBase]
      cases ae with
      | none => rfl
      | some b =>
        have hb := hcode b rfl
        simp [hb]

/-- C1 witness: 503 is Server-classified and 418 with no body is the
untagged fallback with code "http_418". -/
theorem classify_status_variant_mapping_witness :
    (errorFromResponse 503 none).kind = .server ∧
    (errorFromResponse 418 none).kind = .base ∧
    (errorFromResponse 418 none).toBase.code = "http_418" := by
  refine ⟨(classify_status_variant_mapping 503 none).2.2.2.2.2.2.1 (by norm_num),
    ((classify_status_variant_mapping 418 none).2.2.2.2.2.2.2 (by decide)
      (by norm_num)).1, ?_⟩
  have h := ((classify_status_variant_mapping 418 none).2.2.2.2.2.2.2 (by decide)
    (by norm_num)).2.2 (fun b hb => by cases hb)
  rw [h]
  decide

/-- C3 counterexample: the TimeoutError the transport returns when the
context is done during a send carries status code 0 (the Go zero value of
the unset `StatusCode` field), not a concrete, meaningful HTTP status. -/
theorem error_invariant_status_zero_cex :
    (request (fun _ => .failure true "context deadline exceeded")
        (fun _ => none) "GET" "/verifications" 2).1 =
      .err (timeoutError "GET" "/verifications") ∧
    (timeoutError "GET" "/verifications").toBase.statusCode = 0 ∧
    ¬ (1 ≤ (timeoutError "GET" "/verifications").toBase.statusCode) := by
  refine ⟨?_, rfl, by decide⟩
  have h := requestFrom_failure_ctxDone
    (fun _ => .failure true "context deadline exceeded")
    (fun _ => none) "GET" "/verifications" 2 0 "context deadline exceeded" rfl
  exact congrArg Prod.fst h

/-- C3 (amended): every error classified from a response carries a
non-empty message, a non-empty code and that response's status code; the
locally constructed TimeoutError, NetworkError and PollingTimeoutError
carry a non-empty (for NetworkError: the wrapped failure's) message and a
fixed non-empty code, but leave the status code at the zero value 0.
Errors are plain values, never mutated after construction. -/
theorem error_fields_after_construction (s : Int) (ae : Option ApiErrorBody)
    (method path msg label durStr status : String) :
    ((errorFromResponse s ae).toBase.message ≠ "" ∧
     (errorFromResponse s ae).toBase.code ≠ "" ∧
     (errorFromResponse s ae).toBase.statusCode = s) ∧
    ((timeoutError method path).toBase.message ≠ "" ∧
     (timeoutError method path).toBase.code = "timeout" ∧
     (timeoutError method path).toBase.statusCode = 0) ∧
    ((networkError msg).toBase.message = msg ∧
     (networkError msg).toBase.code = "network_error" ∧
     (networkError msg).toBase.statusCode = 0) ∧
    ((pollingTimeoutError label durStr status).toBase.message ≠ "" ∧
     (pollingTimeoutError label durStr status).toBase.code = "polling_timeout" ∧
     (pollingTimeoutError label durStr status).toBase.statusCode = 0) := by
  refine ⟨⟨?_, ?_, ?_⟩, ⟨?_, rfl, rfl⟩, ⟨rfl, rfl, rfl⟩, ⟨?_, rfl, rfl⟩⟩
  · rw [errorFromResponse_toBase]
    cases ae with
    | none => exact append_ne_empty_left (by decide)
    | some b =>
      by_cases hb : b.message = ""
      · simp only [hb, if_pos]
        exact append_ne_empty_left (by decide)
      · simp [hb]
  · rw [errorFromResponse_toBase]
    cases ae with
    | none => exact append_ne_empty_left (by decide)
    | some b =>
      by_cases hb : b.code = ""
      · simp only [hb, if_pos]
        exact append_ne_empty_left (by decide)
      · simp [hb]
  · rw [errorFromResponse_toBase]
  · exact append_ne_empty_right (by decide)
  · exact append_ne_empty_right (by decide)

/-- C4: the retry loop runs attempts 0..maxRetries inclusive: with
maxRetries = 1, a GET answered 500 then 200 succeeds after exactly 2
server calls, and a GET answered 500 on every attempt fails with a
Server-classified error after exactly 2 server calls. -/
theorem retry_budget_two_calls (parse : String → Option GoMap) (path : String) :
    (∀ (send : Nat → SendResult) (h0 h1 : Option String) (b0 b1 : String),
      send 0 = .response 500 h0 b0 → send 1 = .response 200 h1 b1 →
      request send parse "GET" path 1 = (.ok (parseResponse parse b1), 2)) ∧
    (∀ (send : Nat → SendResult) (hdr : Nat → Option String)
        (bdy : Nat → String),
      (∀ n, send n = .response 500 (hdr n) (bdy n)) →
      request send parse "GET" path 1 =
        (.err (errorFromResponse 500
          (extractApiErr (parseResponse parse (bdy 1)))), 2) ∧
      (errorFromResponse 500
        (extractApiErr (parseResponse parse (bdy 1)))).kind = .server) := by
  constructor
  · intro send h0 h1 b0 b1 hs0 hs1
    have hstep := requestFrom_response_retry send parse "GET" path 1 0 500 h0 b0
      hs0 (Or.inr (by norm_num)) (by norm_num)
    have hfin := requestFrom_response_final send parse "GET" path 1 1 200 h1 b1
      hs1 (by omega) (by omega)
    rw [request, hstep, hfin, if_neg (by norm_num)]
  · intro send hdr bdy hsend
    have hstep := requestFrom_response_retry send parse "GET" path 1 0 500
      (hdr 0) (bdy 0) (hsend 0) (Or.inr (by norm_num)) (by norm_num)
    have hfin := requestFrom_response_final send parse "GET" path 1 1 500
      (hdr 1) (bdy 1) (hsend 1) (by omega) (by omega)
    refine ⟨?_, ?_⟩
    · rw [request, hstep, hfin, if_pos (by norm_num)]
    · rw [errorFromResponse_kind]
      norm_num

/-- C4 witness: a concrete server answering 500 then 200, maxRetries 1. -/
theorem retry_budget_two_calls_witness :
    request
      (fun n => if n = 0 then .response 500 none "fail-body"
                else .response 200 none "ok-body")
      (fun _ => none) "GET" "/verifications" 1 =
      (.ok (parseResponse (fun _ => none) "ok-body"), 2) :=
  (retry_budget_two_calls (fun _ => none) "/verifications").1
    (fun n => if n = 0 then .response 500 none "fail-body"
              else .response 200 none "ok-body")
    none none "fail-body" "ok-body" rfl rfl

/-- C7: a first response with a 4xx status other than 429 is never
retried: the transport returns the classified error after exactly one
server call whatever the retry budget; and a 429 or ≥500 first response
with attempts remaining does lead to at least a second call. -/
theorem no_retry_on_nonretryable_4xx (send : Nat → SendResult)
    (parse : String → Option GoMap) (method path : String)
    (maxRetries : Nat) (status : Int) (hdr : Option String) (body : String)
    (hsend : send 0 = .response status hdr body) :
    (400 ≤ status → status ≠ 429 → status < 500 →
      request send parse method path maxRetries =
        (.err (errorFromResponse status
          (extractApiErr (parseResponse parse body))), 1)) ∧
    ((status = 429 ∨ 500 ≤ status) → 0 < maxRetries →
      2 ≤ (request send parse method path maxRetries).2) := by
  constructor
  · intro h4 hne hlt
    have hfin := requestFrom_response_final send parse method path maxRetries 0
      status hdr body hsend (by omega) (by omega)
    rw [request, hfin, if_pos h4]
  · intro hretry hpos
    have hstep := requestFrom_response_retry send parse method path maxRetries 0
      status hdr body hsend hretry hpos
    have h2 : (request send parse method path maxRetries).2 =
        (requestFrom send parse method path maxRetries 1).2 + 1 := by
      rw [request, hstep]
    have hcalls := requestFrom_calls_pos send parse method path maxRetries 1
    omega

/-- C7 witness: a 404 with five retries still surfaces after one call. -/
theorem no_retry_on_nonretryable_4xx_witness :
    request (fun _ => .response 404 none "missing")
      (fun _ => none) "GET" "/verifications/v_1" 5 =
      (.err (errorFromResponse 404
        (extractApiErr (parseResponse (fun _ => none) "missing"))), 1) :=
  (no_retry_on_nonretryable_4xx (fun _ => .response 404 none "missing")
    (fun _ => none) "GET" "/verifications/v_1" 5 404 none "missing" rfl).1
    (by norm_num) (by norm_num) (by norm_num)

/-- C9: a final response's unparsable or empty body parses into the empty
result object: for a success status the call returns the (possibly empty)
parsed map and never an error, so a parse failure alone never causes a
failure — a failure only arises from a status ≥ 400. -/
theorem unparsable_body_empty_result (send : Nat → SendResult)
    (parse : String → Option GoMap) (method path : String)
    (maxRetries : Nat) (status : Int) (hdr : Option String) (body : String)
    (hsend : send 0 = .response status hdr body) (hlt : status < 400) :
    request send parse method path maxRetries =
      (.ok (parseResponse parse body), 1) ∧
    (parse body = none → parseResponse parse body = []) ∧
    (body = "" → parseResponse parse body = []) := by
  refine ⟨?_, ?_, ?_⟩
  · have hfin := requestFrom_response_final send parse method path maxRetries 0
      status hdr body hsend (by omega) (by omega)
    rw [request, hfin, if_neg (by omega)]
  · intro hp
    unfold parseResponse
    rw [hp]
    split <;> rfl
  · intro hb
    subst hb
    unfold parseResponse
    rw [if_neg (by decide)]

/-- C9 witness: a 200 response with an unparsable body returns the empty
map, not an error. -/
theorem unparsable_body_empty_result_witness :
    request (fun _ => .response 200 none "not-json")
      (fun _ => none) "GET" "/verifications" 2 =
      (.ok (parseResponse (fun _ => none) "not-json"), 1) ∧
    parseResponse (fun _ : String => none) "not-json" = [] := by
  have h := unparsable_body_empty_result (fun _ => .response 200 none "not-json")
    (fun _ => none) "GET" "/verifications" 2 200 none "not-json" rfl (by norm_num)
  exact ⟨h.1, h.2.1 rfl⟩

/-- When every retrieval is non-terminal, the poll loop fails with the
polling-timeout error at the first iteration whose elapsed time reaches
the timeout. -/
theorem pollLoop_never_terminal (retrieve : Nat → RetrieveResult)
    (isTerminal : String → Bool) (label : String) (showDur : Int → String)
    (elapsed : Nat → Int) (timeout : Int) (rs : Nat → GoMap)
    (hret : ∀ n, retrieve n = .ok (rs n))
    (hnt : ∀ n, isTerminal (getStatus (rs n)) = false) :
    ∀ (N n fuel : Nat), timeout ≤ elapsed (n + N) →
      (∀ m, m < N → elapsed (n + m) < timeout) → N < fuel →
      pollLoop retrieve isTerminal label showDur elapsed timeout fuel n =
        some (.error (pollingTimeoutError label (showDur timeout)
          (getStatus (rs (n + N))))) := by
  intro N
  induction N with
  | zero =>
    intro n fuel hN hmin hfuel
    cases fuel with
    | zero => omega
    | succ fuel =>
      rw [pollLoop, hret n]
      simp only [hnt n, if_false, Bool.false_eq_true]
      rw [if_pos (by simpa using hN)]
      simp
  | succ N ih =>
    intro n fuel hN hmin hfuel
    cases fuel with
    | zero => omega
    | succ fuel =>
      rw [pollLoop, hret n]
      simp only [hnt n, if_false, Bool.false_eq_true]
      rw [if_neg (by simpa using not_le.mpr (hmin 0 (Nat.succ_pos N)))]
      have hrec := ih (n + 1) fuel (by
          have : n + 1 + N = n + (N + 1) := by omega
          rw [this]
          exact hN)
        (fun m hm => by
          have : n + 1 + m = n + (m + 1) := by omega
          rw [this]
          exact hmin (m + 1) (by omega))
        (by omega)
      rw [hrec]
      have : n + 1 + N = n + (N + 1) := by omega
      rw [this]

/-- C8: if polling never observes a terminal status before the resolved
timeout elapses (elapsed time measured from the recorded start), the poll
fails with a PollingTimeoutError whose message embeds the label, the
rendered timeout value and the last observed status. -/
theorem polling_timeout_error_message (retrieve : Nat → RetrieveResult)
    (isTerminal : String → Bool) (label : String) (showDur : Int → String)
    (elapsed : Nat → Int) (opts : Option WaitOptions) (rs : Nat → GoMap)
    (N fuel : Nat)
    (hret : ∀ n, retrieve n = .ok (rs n))
    (hnt : ∀ n, isTerminal (getStatus (rs n)) = false)
    (hN : (resolveWaitOptions opts).2 ≤ elapsed N)
    (hmin : ∀ m, m < N → elapsed m < (resolveWaitOptions opts).2)
    (hfuel : N < fuel) :
    pollUntilComplete retrieve isTerminal label showDur elapsed opts fuel =
      some (.error (pollingTimeoutError label
        (showDur (resolveWaitOptions opts).2) (getStatus (rs N)))) ∧
    (pollingTimeoutError label (showDur (resolveWaitOptions opts).2)
        (getStatus (rs N))).toBase.message =
      label ++ " did not complete within " ++
        showDur (resolveWaitOptions opts).2 ++
        " (last status: " ++ getStatus (rs N) ++ ")" := by
  refine ⟨?_, rfl⟩
  have h := pollLoop_never_terminal retrieve isTerminal label showDur elapsed
    (resolveWaitOptions opts).2 rs hret hnt N 0 fuel (by simpa using hN)
    (fun m hm => by simpa using hmin m hm) hfuel
  rw [pollUntilComplete, h]
  simp

/-- C8 witness: a resource stuck at "pending" with the default 10-minute
timeout reached at the second iteration. -/
theorem polling_timeout_error_message_witness :
    pollUntilComplete (fun _ => .ok [("status", .str "pending")])
      (fun _ => false) "verification" (fun _ => "10m0s")
      (fun n => 600000 * n) none 2 =
      some (.error (pollingTimeoutError "verification" "10m0s" "pending")) := by
  have h := (polling_timeout_error_message
    (fun _ => .ok [("status", .str "pending")]) (fun _ => false)
    "verification" (fun _ => "10m0s") (fun n => 600000 * n) none
    (fun _ => [("status", .str "pending")]) 1 2
    (fun _ => rfl) (fun _ => rfl) (by decide)
    (fun m hm => by
      have hm0 : m = 0 := by omega
      subst hm0
      decide)
    (by omega)).1
  simpa [getStatus, mapLookup, resolveWaitOptions] using h

/-- Any error the poll loop returns is either a propagated retrieval
error or the polling-timeout error issued right after a non-terminal
retrieval whose elapsed time reached the timeout. -/
theorem pollLoop_error_cases (retrieve : Nat → RetrieveResult)
    (isTerminal : String → Bool) (label : String) (showDur : Int → String)
    (elapsed : Nat → Int) (timeout : Int) :
    ∀ (fuel n : Nat) (e : ClassifiedError),
      pollLoop retrieve isTerminal label showDur elapsed timeout fuel n =
        some (.error e) →
      (∃ m, retrieve m = .error e) ∨
      (∃ m r, retrieve m = .ok r ∧ isTerminal (getStatus r) = false ∧
        timeout ≤ elapsed m ∧
        e = pollingTimeoutError label (showDur timeout) (getStatus r)) := by
  intro fuel
  induction fuel with
  | zero =>
    intro n e h
    simp [pollLoop] at h
  | succ fuel ih =>
    intro n e h
    rw [pollLoop] at h
    cases hr : retrieve n with
    | error e2 =>
      rw [hr] at h
      dsimp only at h
      exact Or.inl ⟨n, hr.trans (Option.some.inj h)⟩
    | ok r =>
      rw [hr] at h
      dsimp only at h
      by_cases ht : isTerminal (getStatus r) = true
      · rw [if_pos ht] at h
        simp at h
      · rw [if_neg ht] at h
        by_cases he : timeout ≤ elapsed n
        · rw [if_pos he] at h
          simp only [Option.some.injEq, Except.error.injEq] at h
          exact Or.inr ⟨n, r, hr, by simpa using ht, he, h.symm⟩
        · rw [if_neg he] at h
          exact ih (n + 1) e h

/-- C10: polling always performs a first retrieval (an immediate
retrieval error or terminal result decides the outcome), the terminal
check precedes the timeout check — a terminal retrieval is returned as
success for every elapsed function, even one at or past the timeout — and
a PollingTimeoutError is only produced right after a non-terminal
retrieval. -/
theorem polling_terminal_precedence (retrieve : Nat → RetrieveResult)
    (isTerminal : String → Bool) (label : String) (showDur : Int → String)
    (elapsed : Nat → Int) (opts : Option WaitOptions) :
    (∀ (n fuel : Nat) (r : GoMap), retrieve n = .ok r →
      isTerminal (getStatus r) = true →
      pollLoop retrieve isTerminal label showDur elapsed
        (resolveWaitOptions opts).2 (fuel + 1) n = some (.ok r)) ∧
    (∀ (fuel : Nat) (e : ClassifiedError), retrieve 0 = .error e →
      pollUntilComplete retrieve isTerminal label showDur elapsed opts
        (fuel + 1) = some (.error e)) ∧
    (∀ (fuel : Nat) (e : ClassifiedError),
      pollUntilComplete retrieve isTerminal label showDur elapsed opts fuel =
        some (.error e) →
      (∃ n, retrieve n = .error e) ∨
      (∃ n r, retrieve n = .ok r ∧ isTerminal (getStatus r) = false ∧
        (resolveWaitOptions opts).2 ≤ elapsed n ∧
        e = pollingTimeoutError label
          (showDur (resolveWaitOptions opts).2) (getStatus r))) := by
  refine ⟨?_, ?_, ?_⟩
  · intro n fuel r hr ht
    rw [pollLoop, hr]
    dsimp only
    rw [if_pos ht]
  · intro fuel e he
    rw [pollUntilComplete, pollLoop, he]
  · intro fuel e h
    exact pollLoop_error_cases retrieve isTerminal label showDur elapsed
      (resolveWaitOptions opts).2 fuel 0 e h

/-- C10 witness: an immediately terminal resource is returned as success
although the elapsed time is far past the default timeout. -/
theorem polling_terminal_precedence_witness :
    pollLoop (fun _ => .ok [("status", .str "verified")])
      (fun s => s == "verified") "verification" (fun _ => "10m0s")
      (fun _ => 999999999) (resolveWaitOptions none).2 1 0 =
      some (.ok [("status", .str "verified")]) :=
  (polling_terminal_precedence (fun _ => .ok [("status", .str "verified")])
    (fun s => s == "verified") "verification" (fun _ => "10m0s")
    (fun _ => 999999999) none).1 0 0 [("status", .str "verified")] rfl rfl

end ProofSDK
